import Mathlib

/-!
# sdl3_gpu_test: a shallow embedding of `src/main.c`

The program drives the SDL GPU API.  The API itself is an external library, so
every SDL entry point is embedded as a recording test double: a call appends
one `Call` (with its arguments and its result) to the trace of a `World`, and
every call that hands back an object pointer asks the world whether it
succeeds.  The functions of `main.c` are translated statement by statement on
top of these doubles.
-/

set_option linter.unusedVariables false

namespace Sdl3GpuTest

/-! ## Handles and plain data -/

/-- An object pointer handed out by SDL; `0` is the null pointer. -/
abbrev Handle := Nat

/-- The null pointer. -/
def NULL : Handle := 0

/-- The float literals that occur in the source (`0.f`, `1.f`/`1.0f`, `-1.f`). -/
inductive FloatLit where
  | zero
  | one
  | negOne
  deriving DecidableEq, Repr

/-- Object representation of a `float` literal: IEEE-754 binary32, little endian. -/
def FloatLit.bytes : FloatLit → List Nat
  | .zero => [0x00, 0x00, 0x00, 0x00]
  | .one => [0x00, 0x00, 0x80, 0x3F]
  | .negOne => [0x00, 0x00, 0x80, 0xBF]

/-- An SDL enumerator that the program only passes through, kept under its source name. -/
abbrev Enumerator := String

/-- The values of `SDL_GpuBackend` that `load_shader` distinguishes; every other
value of the enumeration is `OTHER`. -/
inductive SDL_GpuBackend where
  | D3D11
  | VULKAN
  | METAL
  | OTHER (value : Nat)
  deriving DecidableEq, Repr

/-- The shader formats `load_shader` assigns. -/
inductive SDL_GpuShaderFormat where
  | HLSL
  | SPIRV
  | METALLIB
  deriving DecidableEq, Repr

structure render_context where
  device : Handle
  deriving DecidableEq, Repr

structure VertexPosition2D where
  x : FloatLit
  y : FloatLit
  deriving DecidableEq, Repr

structure VertexColor where
  r : FloatLit
  g : FloatLit
  b : FloatLit
  deriving DecidableEq, Repr

structure example_1 where
  pipeline : Handle
  buffer_position : Handle
  buffer_color : Handle
  deriving DecidableEq, Repr

def example_1_position_data : List VertexPosition2D :=
  [ ⟨.zero, .one⟩,
    ⟨.one, .negOne⟩,
    ⟨.negOne, .negOne⟩ ]

def example_1_color_data : List VertexColor :=
  [ ⟨.one, .zero, .zero⟩,
    ⟨.zero, .one, .zero⟩,
    ⟨.zero, .zero, .one⟩ ]

/-- The bytes of a `VertexPosition2D` (two floats, no padding). -/
def VertexPosition2D.bytes (v : VertexPosition2D) : List Nat :=
  v.x.bytes ++ v.y.bytes

/-- The bytes of a `VertexColor` (three floats, no padding). -/
def VertexColor.bytes (v : VertexColor) : List Nat :=
  v.r.bytes ++ v.g.bytes ++ v.b.bytes

/-- Value of `sizeof(float)`. -/
def sizeof_float : Nat := 4

/-- Value of `sizeof(VertexPosition2D)`. -/
def sizeof_VertexPosition2D : Nat := 2 * sizeof_float

/-- Value of `sizeof(VertexColor)`. -/
def sizeof_VertexColor : Nat := 3 * sizeof_float

/-! ## Descriptions passed to SDL -/

structure SDL_GpuBufferBinding where
  buffer : Handle
  offset : Nat
  deriving DecidableEq, Repr

structure SDL_GpuTransferBufferRegion where
  transferBuffer : Handle
  offset : Nat
  size : Nat
  deriving DecidableEq, Repr

structure SDL_GpuTransferBufferLocation where
  transferBuffer : Handle
  offset : Nat
  deriving DecidableEq, Repr

structure SDL_GpuBufferRegion where
  buffer : Handle
  offset : Nat
  size : Nat
  deriving DecidableEq, Repr

structure SDL_GpuColorAttachmentBlendState where
  blendEnable : Nat
  alphaBlendOp : Enumerator
  colorBlendOp : Enumerator
  colorWriteMask : Nat
  srcAlphaBlendFactor : Enumerator
  dstAlphaBlendFactor : Enumerator
  srcColorBlendFactor : Enumerator
  dstColorBlendFactor : Enumerator
  deriving DecidableEq, Repr

structure SDL_GpuColorAttachmentDescription where
  format : Nat
  blendState : SDL_GpuColorAttachmentBlendState
  deriving DecidableEq, Repr

structure SDL_GpuVertexBinding where
  binding : Nat
  inputRate : Enumerator
  stepRate : Nat
  stride : Nat
  deriving DecidableEq, Repr

structure SDL_GpuVertexAttribute where
  binding : Nat
  format : Enumerator
  location : Nat
  offset : Nat
  deriving DecidableEq, Repr

structure SDL_GpuVertexInputState where
  vertexBindingCount : Nat
  vertexBindings : List SDL_GpuVertexBinding
  vertexAttributeCount : Nat
  vertexAttributes : List SDL_GpuVertexAttribute
  deriving DecidableEq, Repr

structure SDL_GpuGraphicsPipelineAttachmentInfo where
  colorAttachmentCount : Nat
  colorAttachmentDescriptions : List SDL_GpuColorAttachmentDescription
  depthStencilFormat : Enumerator
  hasDepthStencilAttachment : Bool
  deriving DecidableEq, Repr

structure SDL_GpuDepthStencilState where
  depthTestEnable : Nat
  depthWriteEnable : Nat
  compareOp : Enumerator
  deriving DecidableEq, Repr

structure SDL_GpuMultisampleState where
  multisampleCount : Enumerator
  sampleMask : Nat
  deriving DecidableEq, Repr

/-- The fields of `SDL_GpuGraphicsPipelineCreateInfo` that `init_example_1`
assigns; the others stay zeroed by `SDL_zero`. -/
structure SDL_GpuGraphicsPipelineCreateInfo where
  attachmentInfo : SDL_GpuGraphicsPipelineAttachmentInfo
  depthStencilState : SDL_GpuDepthStencilState
  multisampleState : SDL_GpuMultisampleState
  primitiveType : Enumerator
  vertexShader : Handle
  fragmentShader : Handle
  vertexInputState : SDL_GpuVertexInputState
  deriving DecidableEq, Repr

/-- The fields of `SDL_GpuColorAttachmentInfo` that `render_example_1`
assigns; the others stay zeroed by `SDL_zero`. -/
structure SDL_GpuColorAttachmentInfo where
  texture : Handle
  clearColor_a : FloatLit
  loadOp : Enumerator
  storeOp : Enumerator
  deriving DecidableEq, Repr

/-- The fields of `SDL_GpuShaderCreateInfo` that `load_shader` assigns. -/
structure SDL_GpuShaderCreateInfo where
  samplerCount : Nat
  storageBufferCount : Nat
  storageTextureCount : Nat
  uniformBufferCount : Nat
  entryPointName : String
  format : SDL_GpuShaderFormat
  deriving DecidableEq, Repr

/-! ## The recording world -/

/-- One call made by the program, with its arguments; a call that returns an
object pointer carries the returned pointer as its last field. -/
inductive Call where
  | report_error (format : String)
  | puts (text : String)
  | SDL_GpuCreateBuffer (device : Handle) (usage : Enumerator) (size : Nat) (ret : Handle)
  | SDL_GpuSetBufferName (device : Handle) (buffer : Handle) (text : String)
  | SDL_GpuCreateTransferBuffer (device : Handle) (usage : Enumerator) (size : Nat)
      (ret : Handle)
  | SDL_GpuSetTransferData (device : Handle) (data : List Nat)
      (region : SDL_GpuTransferBufferRegion) (cycle : Bool)
  | SDL_GpuUploadToBuffer (copy_pass : Handle) (source : SDL_GpuTransferBufferLocation)
      (destination : SDL_GpuBufferRegion) (cycle : Bool)
  | SDL_GpuGetBackend (device : Handle)
  | SDL_GpuAcquireCommandBuffer (device : Handle) (ret : Handle)
  | SDL_GpuBeginCopyPass (command_buffer : Handle) (ret : Handle)
  | SDL_GpuEndCopyPass (copy_pass : Handle)
  | SDL_GpuSubmit (command_buffer : Handle)
  | SDL_GpuReleaseTransferBuffer (device : Handle) (buffer : Handle)
  | SDL_GpuGetSwapchainTextureFormat (device : Handle) (window : Handle)
  | SDL_GpuCreateGraphicsPipeline (device : Handle)
      (createinfo : SDL_GpuGraphicsPipelineCreateInfo) (ret : Handle)
  | SDL_GpuReleaseShader (device : Handle) (shader : Handle)
  | SDL_GpuAcquireSwapchainTexture (command_buffer : Handle) (window : Handle)
      (ret : Handle)
  | SDL_GpuBeginRenderPass (command_buffer : Handle)
      (colorAttachments : List SDL_GpuColorAttachmentInfo) (depthStencil : Handle)
      (ret : Handle)
  | SDL_GpuBindGraphicsPipeline (render_pass : Handle) (pipeline : Handle)
  | SDL_GpuBindVertexBuffers (render_pass : Handle) (firstBinding : Nat)
      (bindings : List SDL_GpuBufferBinding)
  | SDL_GpuDrawPrimitives (render_pass : Handle) (arg1 : Nat) (arg2 : Nat)
  | SDL_GpuEndRenderPass (render_pass : Handle)
  deriving DecidableEq, Repr

/-- The environment of the program.  `outcome k` tells whether the `k`-th
pointer-returning SDL call succeeds, `made` counts those calls so far, and
`trace` lists the calls made, oldest first. -/
structure World where
  outcome : Nat → Bool
  backend : SDL_GpuBackend
  swapchain_format : Nat
  null_text : String
  made : Nat
  trace : List Call

/-- Append a call to the trace. -/
def World.record (w : World) (c : Call) : World :=
  { w with trace := w.trace ++ [c] }

/-- The pointer the next pointer-returning call yields: a fresh non-null
pointer when the call succeeds, the null pointer otherwise. -/
def World.next (w : World) : Handle :=
  if w.outcome w.made then w.made + 1 else NULL

/-- Count one more pointer-returning call. -/
def World.tick (w : World) : World :=
  { w with made := w.made + 1 }

/-- The calls made between world `w` and a later world `w2`. -/
def recorded (w w2 : World) : List Call :=
  w2.trace.drop w.trace.length

/-! ## SDL entry points -/

def report_error (w : World) (format : String) : World :=
  w.record (.report_error format)

def puts (w : World) (text : String) : World :=
  w.record (.puts text)

def SDL_GpuCreateBuffer (w : World) (device : Handle) (usage : Enumerator) (size : Nat) :
    Handle × World :=
  (w.next, w.tick.record (.SDL_GpuCreateBuffer device usage size w.next))

def SDL_GpuSetBufferName (w : World) (device buffer : Handle) (text : String) : World :=
  w.record (.SDL_GpuSetBufferName device buffer text)

def SDL_GpuCreateTransferBuffer (w : World) (device : Handle) (usage : Enumerator)
    (size : Nat) : Handle × World :=
  (w.next, w.tick.record (.SDL_GpuCreateTransferBuffer device usage size w.next))

def SDL_GpuSetTransferData (w : World) (device : Handle) (data : List Nat)
    (region : SDL_GpuTransferBufferRegion) (cycle : Bool) : World :=
  w.record (.SDL_GpuSetTransferData device data region cycle)

def SDL_GpuUploadToBuffer (w : World) (copy_pass : Handle)
    (source : SDL_GpuTransferBufferLocation) (destination : SDL_GpuBufferRegion)
    (cycle : Bool) : World :=
  w.record (.SDL_GpuUploadToBuffer copy_pass source destination cycle)

def SDL_GpuGetBackend (w : World) (device : Handle) : SDL_GpuBackend × World :=
  (w.backend, w.record (.SDL_GpuGetBackend device))

def SDL_GpuAcquireCommandBuffer (w : World) (device : Handle) : Handle × World :=
  (w.next, w.tick.record (.SDL_GpuAcquireCommandBuffer device w.next))

def SDL_GpuBeginCopyPass (w : World) (command_buffer : Handle) : Handle × World :=
  (w.next, w.tick.record (.SDL_GpuBeginCopyPass command_buffer w.next))

def SDL_GpuEndCopyPass (w : World) (copy_pass : Handle) : World :=
  w.record (.SDL_GpuEndCopyPass copy_pass)

def SDL_GpuSubmit (w : World) (command_buffer : Handle) : World :=
  w.record (.SDL_GpuSubmit command_buffer)

def SDL_GpuReleaseTransferBuffer (w : World) (device buffer : Handle) : World :=
  w.record (.SDL_GpuReleaseTransferBuffer device buffer)

def SDL_GpuGetSwapchainTextureFormat (w : World) (device window : Handle) : Nat × World :=
  (w.swapchain_format, w.record (.SDL_GpuGetSwapchainTextureFormat device window))

def SDL_GpuCreateGraphicsPipeline (w : World) (device : Handle)
    (createinfo : SDL_GpuGraphicsPipelineCreateInfo) : Handle × World :=
  (w.next, w.tick.record (.SDL_GpuCreateGraphicsPipeline device createinfo w.next))

def SDL_GpuReleaseShader (w : World) (device shader : Handle) : World :=
  w.record (.SDL_GpuReleaseShader device shader)

def SDL_GpuAcquireSwapchainTexture (w : World) (command_buffer window : Handle) :
    Handle × World :=
  (w.next, w.tick.record (.SDL_GpuAcquireSwapchainTexture command_buffer window w.next))

def SDL_GpuBeginRenderPass (w : World) (command_buffer : Handle)
    (colorAttachments : List SDL_GpuColorAttachmentInfo) (depthStencil : Handle) :
    Handle × World :=
  (w.next,
    w.tick.record (.SDL_GpuBeginRenderPass command_buffer colorAttachments depthStencil w.next))

def SDL_GpuBindGraphicsPipeline (w : World) (render_pass pipeline : Handle) : World :=
  w.record (.SDL_GpuBindGraphicsPipeline render_pass pipeline)

def SDL_GpuBindVertexBuffers (w : World) (render_pass : Handle) (firstBinding : Nat)
    (bindings : List SDL_GpuBufferBinding) : World :=
  w.record (.SDL_GpuBindVertexBuffers render_pass firstBinding bindings)

def SDL_GpuDrawPrimitives (w : World) (render_pass : Handle) (arg1 arg2 : Nat) : World :=
  w.record (.SDL_GpuDrawPrimitives render_pass arg1 arg2)

def SDL_GpuEndRenderPass (w : World) (render_pass : Handle) : World :=
  w.record (.SDL_GpuEndRenderPass render_pass)

/-- The UTF-8 bytes of one character. -/
def utf8_char (c : Char) : List Nat :=
  if c.toNat < 0x80 then [c.toNat]
  else if c.toNat < 0x800 then [0xC0 + c.toNat / 0x40, 0x80 + c.toNat % 0x40]
  else if c.toNat < 0x10000 then
    [0xE0 + c.toNat / 0x1000, 0x80 + c.toNat / 0x40 % 0x40, 0x80 + c.toNat % 0x40]
  else
    [0xF0 + c.toNat / 0x40000, 0x80 + c.toNat / 0x1000 % 0x40, 0x80 + c.toNat / 0x40 % 0x40,
      0x80 + c.toNat % 0x40]

/-- The bytes of a C string holding the text `s` (UTF-8, without the
terminating zero). -/
def c_bytes (s : String) : List Nat :=
  s.data.flatMap utf8_char

/-- What `%s` prints for a string argument; a null pointer prints the
platform's `null_text`. -/
def format_s (null_text : String) : Option String → String
  | some s => s
  | none => null_text

/-- The call `SDL_snprintf(buf, maxlen, "%s.%s.%s", a, b, c)`: the text left in `buf`,
as bytes, cut to `maxlen - 1` bytes (the terminating zero is left out). -/
def SDL_snprintf_s_s_s (null_text : String) (maxlen : Nat) (a b c : Option String) :
    List Nat :=
  (c_bytes (format_s null_text a ++ "." ++ format_s null_text b ++ "." ++
    format_s null_text c)).take (maxlen - 1)

/-! ## `create_buffer_and_upload` -/

/-- Conversion of a `size_t` value to `Uint32`, the type of every size that
SDL's GPU interface takes (the parameter `sizeInBytes` of
`SDL_GpuCreateBuffer` and `SDL_GpuCreateTransferBuffer`, the field `size` of
`SDL_GpuTransferBufferRegion` and `SDL_GpuBufferRegion`). -/
def to_Uint32 (n : Nat) : Nat :=
  n % 2 ^ 32

/-- What `create_buffer_and_upload` leaves behind: its return value, the value
stored through `buffer_destination`, the value stored through
`buffer_transfer` (`none` when the function returns before that store), and
the world. -/
structure UploadResult where
  ret : Bool
  buffer_destination : Handle
  buffer_transfer : Option Handle
  world : World

/-- The function `create_buffer_and_upload`.  `data` stands for the bytes that
the pointer `data` addresses and `size` for the `size_t` argument; each use of
`size` as an SDL size converts it to `Uint32`. -/
def create_buffer_and_upload (w : World) (context : render_context)
    (command_buffer copy_pass : Handle) (name : String) (data : List Nat) (size : Nat) :
    UploadResult :=
  let (buffer_destination, w1) :=
    SDL_GpuCreateBuffer w context.device "SDL_GPU_BUFFERUSAGE_VERTEX_BIT" (to_Uint32 size)
  if NULL = buffer_destination then
    { ret := false
      buffer_destination := buffer_destination
      buffer_transfer := none
      world := report_error w1 "Failed to create a buffer, exiting..." }
  else
    let w2 := SDL_GpuSetBufferName w1 context.device buffer_destination
      "example_1_position_data"
    let (buffer_transfer, w3) :=
      SDL_GpuCreateTransferBuffer w2 context.device "SDL_GPU_TRANSFERBUFFERUSAGE_UPLOAD"
        (to_Uint32 size)
    if NULL = buffer_transfer then
      { ret := false
        buffer_destination := buffer_destination
        buffer_transfer := some buffer_transfer
        world := report_error w3 "Failed to create a transfer buffer, exiting..." }
    else
      let region : SDL_GpuTransferBufferRegion :=
        { transferBuffer := buffer_transfer, offset := 0, size := to_Uint32 size }
      let w4 := SDL_GpuSetTransferData w3 context.device data region false
      let buffer_location : SDL_GpuTransferBufferLocation :=
        { transferBuffer := buffer_transfer, offset := 0 }
      let dst_region : SDL_GpuBufferRegion :=
        { buffer := buffer_destination, offset := 0, size := to_Uint32 size }
      let w5 := SDL_GpuUploadToBuffer w4 copy_pass buffer_location dst_region false
      { ret := true
        buffer_destination := buffer_destination
        buffer_transfer := some buffer_transfer
        world := w5 }

/-! ## `load_shader` -/

/-- The C enumeration `ShaderType`; like every C enumeration it can hold any
integer, of which only 0, 1 and 2 are enumerators. -/
abbrev ShaderType := Int

def ShaderType_Vertex : ShaderType := 0

def ShaderType_Fragment : ShaderType := 1

def ShaderType_Compute : ShaderType := 2

/-- The locals of `load_shader` when it reaches its last `return`. -/
structure LoadShaderFrame where
  createinfo : SDL_GpuShaderCreateInfo
  shader_type_string : Option String
  shader_backend_string : Option String
  filename_buffer : List Nat
  deriving DecidableEq, Repr

/-- What `load_shader` leaves behind: the returned pointer, its locals when
the last `return` is reached (`none` on the two early returns), and the world. -/
structure LoadShaderResult where
  ret : Handle
  frame : Option LoadShaderFrame
  world : World

/-- The first `switch` of `load_shader`: the assignments to
`shader_type_string` and `createinfo.entryPointName`, or `none` for the
`default` branch. -/
def load_shader_switch_type (type : ShaderType) : Option (String × String) :=
  if type = ShaderType_Vertex then some (".vert", "vtx_main")
  else if type = ShaderType_Fragment then some (".frag", "frag_main")
  else if type = ShaderType_Compute then some (".comp", "comp_main")
  else none

/-- The second `switch` of `load_shader`: the assignments to
`shader_type_string` (sic) and `createinfo.format`, or `none` for the
`default` branch. -/
def load_shader_switch_backend (backend : SDL_GpuBackend) :
    Option (String × SDL_GpuShaderFormat) :=
  match backend with
  | .D3D11 => some (".hlsl", .HLSL)
  | .VULKAN => some (".spirv", .SPIRV)
  | .METAL => some (".metallib", .METALLIB)
  | .OTHER _ => none

def load_shader (w : World) (context : render_context) (name : String) (type : ShaderType) :
    LoadShaderResult :=
  -- const char* shader_type_string = NULL;
  match load_shader_switch_type type with
  | none =>
    { ret := NULL
      frame := none
      world := puts w "Passed an invalid `ShaderType` to `load_shader`, exiting..." }
  | some (_shader_type_string, entryPointName) =>
    let (backend, w1) := SDL_GpuGetBackend w context.device
    let shader_backend_string : Option String := none
    match load_shader_switch_backend backend with
    | none =>
      { ret := NULL
        frame := none
        world := puts w1 "Running on a currently unsupported SDL_gpu backend, exiting..." }
    | some (shader_type_string, format) =>
      -- the second switch stores into `shader_type_string` again
      let createinfo : SDL_GpuShaderCreateInfo :=
        { samplerCount := 0
          storageBufferCount := 0
          storageTextureCount := 0
          uniformBufferCount := 0
          entryPointName := entryPointName
          format := format }
      let filename_buffer :=
        SDL_snprintf_s_s_s w1.null_text 256 (some name) (some shader_type_string)
          shader_backend_string
      { ret := NULL
        frame := some
          { createinfo := createinfo
            shader_type_string := some shader_type_string
            shader_backend_string := shader_backend_string
            filename_buffer := filename_buffer }
        world := w1 }

/-! ## `init_example_1` -/

/-- The bytes of `example_1_position_data`. -/
def example_1_position_bytes : List Nat :=
  example_1_position_data.flatMap VertexPosition2D.bytes

/-- The bytes of `example_1_color_data`. -/
def example_1_color_bytes : List Nat :=
  example_1_color_data.flatMap VertexColor.bytes

/-- Value of `sizeof(example_1_position_data)`. -/
def sizeof_example_1_position_data : Nat :=
  example_1_position_data.length * sizeof_VertexPosition2D

/-- Value of `sizeof(example_1_color_data)`. -/
def sizeof_example_1_color_data : Nat :=
  example_1_color_data.length * sizeof_VertexColor

/-- The two elements of the local array `vertex_binding`. -/
def init_example_1_vertex_binding : List SDL_GpuVertexBinding :=
  [ { binding := 0
      inputRate := "SDL_GPU_VERTEXINPUTRATE_VERTEX"
      stepRate := 0
      stride := sizeof_VertexPosition2D },
    { binding := 1
      inputRate := "SDL_GPU_VERTEXINPUTRATE_VERTEX"
      stepRate := 0
      stride := sizeof_VertexColor } ]

/-- The two elements of the local array `vertex_attributes`. -/
def init_example_1_vertex_attributes : List SDL_GpuVertexAttribute :=
  [ -- Position
    { binding := 0
      format := "SDL_GPU_VERTEXELEMENTFORMAT_VECTOR2"
      location := 0
      offset := 0 },
    -- Color
    { binding := 1
      format := "SDL_GPU_VERTEXELEMENTFORMAT_VECTOR3"
      location := 0
      offset := 0 } ]

/-- The local `color_attachment_desc` once all its fields are assigned. -/
def init_example_1_color_attachment_desc (format : Nat) :
    SDL_GpuColorAttachmentDescription :=
  { format := format
    blendState :=
      { blendEnable := 0
        alphaBlendOp := "SDL_GPU_BLENDOP_ADD"
        colorBlendOp := "SDL_GPU_BLENDOP_ADD"
        colorWriteMask := 0xF
        srcAlphaBlendFactor := "SDL_GPU_BLENDFACTOR_ONE"
        dstAlphaBlendFactor := "SDL_GPU_BLENDFACTOR_ZERO"
        srcColorBlendFactor := "SDL_GPU_BLENDFACTOR_ONE"
        dstColorBlendFactor := "SDL_GPU_BLENDFACTOR_ZERO" } }

/-- The local `pipelinedesc` as it is passed to `SDL_GpuCreateGraphicsPipeline`. -/
def init_example_1_pipelinedesc (format : Nat) (vertex_shader fragment_shader : Handle) :
    SDL_GpuGraphicsPipelineCreateInfo :=
  { attachmentInfo :=
      { colorAttachmentCount := 1
        colorAttachmentDescriptions := [init_example_1_color_attachment_desc format]
        depthStencilFormat := "SDL_GPU_TEXTUREFORMAT_D16_UNORM"
        hasDepthStencilAttachment := true }
    depthStencilState :=
      { depthTestEnable := 1
        depthWriteEnable := 1
        compareOp := "SDL_GPU_COMPAREOP_LESS_OR_EQUAL" }
    multisampleState :=
      { multisampleCount := "SDL_GPU_SAMPLECOUNT_1"
        sampleMask := 0xF }
    primitiveType := "SDL_GPU_PRIMITIVETYPE_TRIANGLELIST"
    vertexShader := vertex_shader
    fragmentShader := fragment_shader
    vertexInputState :=
      { vertexBindingCount := 2
        vertexBindings := init_example_1_vertex_binding
        vertexAttributeCount := 2
        vertexAttributes := init_example_1_vertex_attributes } }

/-- What `init_example_1` leaves behind: its return value, the contents of
`*example`, and the world. -/
structure InitResult where
  ret : Bool
  example_ : example_1
  world : World

def init_example_1 (w : World) (context : render_context) (window : Handle)
    (example_ : example_1) : InitResult :=
  let (command_buffer, w1) := SDL_GpuAcquireCommandBuffer w context.device
  if NULL = command_buffer then
    { ret := false
      example_ := example_
      world := report_error w1 "Failed to create a command buffer, exiting..." }
  else
    let (copy_pass, w2) := SDL_GpuBeginCopyPass w1 command_buffer
    if NULL = copy_pass then
      { ret := false
        example_ := example_
        world := report_error w2 "Failed to create a command buffer, exiting..." }
    else
      let up1 := create_buffer_and_upload w2 context command_buffer copy_pass
        "example_1_position_data" example_1_position_bytes sizeof_example_1_position_data
      let ex1 := { example_ with buffer_position := up1.buffer_destination }
      if !up1.ret then
        -- Already printed an error, just fail out.
        { ret := false, example_ := ex1, world := up1.world }
      else
        let buffer_position_transfer := up1.buffer_transfer.getD NULL
        let up2 := create_buffer_and_upload up1.world context command_buffer copy_pass
          "example_1_color_data" example_1_color_bytes sizeof_example_1_color_data
        let ex2 := { ex1 with buffer_color := up2.buffer_destination }
        if !up2.ret then
          -- Already printed an error, just fail out.
          { ret := false, example_ := ex2, world := up2.world }
        else
          let buffer_color_transfer := up2.buffer_transfer.getD NULL
          let w3 := SDL_GpuEndCopyPass up2.world copy_pass
          let w4 := SDL_GpuSubmit w3 command_buffer
          let w5 := SDL_GpuReleaseTransferBuffer w4 context.device buffer_position_transfer
          let w6 := SDL_GpuReleaseTransferBuffer w5 context.device buffer_color_transfer
          let ls1 := load_shader w6 context "example_1" ShaderType_Vertex
          let vertex_shader := ls1.ret
          let ls2 := load_shader ls1.world context "example_1" ShaderType_Fragment
          let fragment_shader := ls2.ret
          /- Set up the graphics pipeline -/
          let (format, w7) := SDL_GpuGetSwapchainTextureFormat ls2.world context.device window
          let pipelinedesc := init_example_1_pipelinedesc format vertex_shader fragment_shader
          let (pipeline, w8) := SDL_GpuCreateGraphicsPipeline w7 context.device pipelinedesc
          let ex3 := { ex2 with pipeline := pipeline }
          if NULL = pipeline then
            { ret := false
              example_ := ex3
              world := report_error w8 "Failed to create a pipeline, exiting..." }
          else
            let w9 := SDL_GpuReleaseShader w8 context.device vertex_shader
            let w10 := SDL_GpuReleaseShader w9 context.device fragment_shader
            { ret := true, example_ := ex3, world := w10 }

/-! ## `render_example_1` -/

/-- One iteration of the frame driver.  `color_vertex_binding` is the content
of the local of that name, which the function never assigns before passing its
address to `SDL_GpuBindVertexBuffers`: whatever the stack holds. -/
def render_example_1 (w : World) (context : render_context) (window : Handle)
    (example_ : example_1) (color_vertex_binding : SDL_GpuBufferBinding) : World :=
  let (command_buffer, w1) := SDL_GpuAcquireCommandBuffer w context.device
  if NULL = command_buffer then
    report_error w1 "Failed to create a command buffer, exiting..."
  else
    let (swapchain, w2) := SDL_GpuAcquireSwapchainTexture w1 command_buffer window
    if swapchain = NULL then
      /- No swapchain was acquired, probably too many frames in flight -/
      SDL_GpuSubmit w2 command_buffer
    else
      let color_attachment : SDL_GpuColorAttachmentInfo :=
        { texture := swapchain
          clearColor_a := .one
          loadOp := "SDL_GPU_LOADOP_CLEAR"
          storeOp := "SDL_GPU_STOREOP_STORE" }
      let (render_pass, w3) := SDL_GpuBeginRenderPass w2 command_buffer [color_attachment] NULL
      let w4 := SDL_GpuBindGraphicsPipeline w3 render_pass example_.pipeline
      let position_vertex_binding : SDL_GpuBufferBinding :=
        { buffer := example_.buffer_position, offset := 0 }
      -- the next two stores go to `position_vertex_binding` again
      let position_vertex_binding : SDL_GpuBufferBinding :=
        { position_vertex_binding with buffer := example_.buffer_color }
      let position_vertex_binding : SDL_GpuBufferBinding :=
        { position_vertex_binding with offset := 0 }
      let w5 := SDL_GpuBindVertexBuffers w4 render_pass 0 [position_vertex_binding]
      let w6 := SDL_GpuBindVertexBuffers w5 render_pass 0 [color_vertex_binding]
      let w7 := SDL_GpuDrawPrimitives w6 render_pass 0 3
      let w8 := SDL_GpuEndRenderPass w7 render_pass
      SDL_GpuSubmit w8 command_buffer

/-- The render pass pointer of an iteration that reaches `SDL_GpuBeginRenderPass`. -/
def render_pass_of (w : World) : Handle :=
  if w.outcome (w.made + 2) then w.made + 3 else NULL

/-! ## Reading a trace -/

/-- Number of `SDL_GpuSubmit` calls for the command buffer `command_buffer`. -/
def submits_of (command_buffer : Handle) (calls : List Call) : Nat :=
  calls.count (.SDL_GpuSubmit command_buffer)

/-- The command buffers submitted, in order. -/
def submitted (calls : List Call) : List Handle :=
  calls.filterMap fun c =>
    match c with
    | .SDL_GpuSubmit command_buffer => some command_buffer
    | _ => none

/-- The arguments of the draw calls, in order. -/
def draw_calls (calls : List Call) : List (Handle × Nat × Nat) :=
  calls.filterMap fun c =>
    match c with
    | .SDL_GpuDrawPrimitives render_pass arg1 arg2 => some (render_pass, arg1, arg2)
    | _ => none

/-- The render passes begun, in order. -/
def render_passes (calls : List Call) : List Handle :=
  calls.filterMap fun c =>
    match c with
    | .SDL_GpuBeginRenderPass _ _ _ ret => some ret
    | _ => none

/-- The copy commands recorded, in order. -/
def upload_calls (calls : List Call) :
    List (Handle × SDL_GpuTransferBufferLocation × SDL_GpuBufferRegion) :=
  calls.filterMap fun c =>
    match c with
    | .SDL_GpuUploadToBuffer copy_pass source destination _ =>
      some (copy_pass, source, destination)
    | _ => none

/-- The transfer buffers that were really created (non-null), in order. -/
def created_transfer_buffers (calls : List Call) : List Handle :=
  calls.filterMap fun c =>
    match c with
    | .SDL_GpuCreateTransferBuffer _ _ _ ret => if ret = NULL then none else some ret
    | _ => none

/-- The transfer buffers released, in order, one entry per release call. -/
def released_transfer_buffers (calls : List Call) : List Handle :=
  calls.filterMap fun c =>
    match c with
    | .SDL_GpuReleaseTransferBuffer _ buffer => some buffer
    | _ => none

/-- The calls strictly before the first `SDL_GpuSubmit` of `command_buffer`
(all of them when there is no such submit). -/
def before_submit (command_buffer : Handle) (calls : List Call) : List Call :=
  calls.takeWhile fun c => !decide (c = .SDL_GpuSubmit command_buffer)

/-- The calls from the first `SDL_GpuSubmit` of `command_buffer` on. -/
def from_submit (command_buffer : Handle) (calls : List Call) : List Call :=
  calls.dropWhile fun c => !decide (c = .SDL_GpuSubmit command_buffer)

/-- The calls strictly before the first draw call. -/
def before_draw (calls : List Call) : List Call :=
  calls.takeWhile fun c =>
    match c with
    | .SDL_GpuDrawPrimitives _ _ _ => false
    | _ => true

/-- The pipeline descriptions handed to `SDL_GpuCreateGraphicsPipeline`, in order. -/
def pipeline_descs (calls : List Call) : List SDL_GpuGraphicsPipelineCreateInfo :=
  calls.filterMap fun c =>
    match c with
    | .SDL_GpuCreateGraphicsPipeline _ createinfo _ => some createinfo
    | _ => none

/-- Effect of one call on the vertex-buffer binding table of a render pass:
`SDL_GpuBindVertexBuffers(pass, first, bindings, n)` binds slot `first + i`
to `bindings[i]`. -/
def bind_step (slots : Nat → Option SDL_GpuBufferBinding) (c : Call) :
    Nat → Option SDL_GpuBufferBinding :=
  match c with
  | .SDL_GpuBindVertexBuffers _ firstBinding bindings => fun slot =>
    if firstBinding ≤ slot ∧ slot < firstBinding + bindings.length then
      bindings[slot - firstBinding]?
    else slots slot
  | _ => slots

/-- The binding table after a sequence of calls, all slots unbound at first. -/
def bound_slots (calls : List Call) : Nat → Option SDL_GpuBufferBinding :=
  calls.foldl bind_step fun _ => none

/-! ## A byte-array model of GPU memory -/

/-- Contents of the device buffers and of the transfer buffers, by pointer. -/
structure GpuMemory where
  buffers : Handle → List Nat
  transfers : Handle → List Nat

/-- Overwrite `bytes.length` bytes of `mem` from `offset` on; a write that
does not fit leaves `mem` as it is. -/
def write_at (mem : List Nat) (offset : Nat) (bytes : List Nat) : List Nat :=
  if offset + bytes.length ≤ mem.length then
    mem.take offset ++ bytes ++ mem.drop (offset + bytes.length)
  else mem

/-- Effect of one call on GPU memory: creation allocates zeroed storage,
`SDL_GpuSetTransferData` writes `region.size` bytes of `data` into the
transfer buffer, `SDL_GpuUploadToBuffer` copies `destination.size` bytes from
the transfer buffer to the device buffer. -/
def GpuMemory.step (m : GpuMemory) (c : Call) : GpuMemory :=
  match c with
  | .SDL_GpuCreateBuffer _ _ size ret =>
    if ret = NULL then m
    else { m with buffers := Function.update m.buffers ret (List.replicate size 0) }
  | .SDL_GpuCreateTransferBuffer _ _ size ret =>
    if ret = NULL then m
    else { m with transfers := Function.update m.transfers ret (List.replicate size 0) }
  | .SDL_GpuSetTransferData _ data region _ =>
    { m with
      transfers := Function.update m.transfers region.transferBuffer
        (write_at (m.transfers region.transferBuffer) region.offset (data.take region.size)) }
  | .SDL_GpuUploadToBuffer _ source destination _ =>
    { m with
      buffers := Function.update m.buffers destination.buffer
        (write_at (m.buffers destination.buffer) destination.offset
          (((m.transfers source.transferBuffer).drop source.offset).take destination.size)) }
  | _ => m

/-- GPU memory after a sequence of calls. -/
def GpuMemory.run (m : GpuMemory) (calls : List Call) : GpuMemory :=
  calls.foldl GpuMemory.step m

/-- A world in which every SDL call succeeds, on Vulkan, with an empty trace. -/
def World.allSucceed : World :=
  { outcome := fun _ => true
    backend := .VULKAN
    swapchain_format := 0
    null_text := "(null)"
    made := 0
    trace := [] }

/-- The world `allSucceed` except that the pointer-returning call number `k`
(counted from 0) fails. -/
def World.failingAt (k : Nat) : World :=
  { World.allSucceed with outcome := fun i => i != k }

/-- The entry point the specification gives a stage kind. -/
def spec_entry_point (type : ShaderType) : String :=
  if type = ShaderType_Vertex then "vtx_main"
  else if type = ShaderType_Fragment then "frag_main"
  else "comp_main"

/-- The shader format the specification gives a supported backend. -/
def spec_format : SDL_GpuBackend → Option SDL_GpuShaderFormat
  | .D3D11 => some .HLSL
  | .VULKAN => some .SPIRV
  | .METAL => some .METALLIB
  | .OTHER _ => none

/-- The stage-kind extension of the specification. -/
def spec_stage_extension (type : ShaderType) : String :=
  if type = ShaderType_Vertex then ".vert"
  else if type = ShaderType_Fragment then ".frag"
  else ".comp"

/-- The backend extension of the specification. -/
def spec_backend_extension : SDL_GpuBackend → String
  | .D3D11 => ".hlsl"
  | .VULKAN => ".spirv"
  | .METAL => ".metallib"
  | .OTHER _ => ""

/-- The artifact locator of the specification: logical name, then stage-kind
extension, then backend extension. -/
def spec_locator (name : String) (type : ShaderType) (backend : SDL_GpuBackend) : String :=
  name ++ spec_stage_extension type ++ spec_backend_extension backend

/-- The locator `load_shader` composes in `filename_buffer` (its bytes), when it
gets that far. -/
def load_shader_locator (w : World) (context : render_context) (name : String)
    (type : ShaderType) : Option (List Nat) :=
  (load_shader w context name type).frame.map fun f => f.filename_buffer

/-- The calls one `load_shader` of a valid stage kind makes in world `w`. -/
def load_shader_calls (w : World) (device : Handle) : List Call :=
  .SDL_GpuGetBackend device ::
    match load_shader_switch_backend w.backend with
    | none => [.puts "Running on a currently unsupported SDL_gpu backend, exiting..."]
    | some _ => []

/-- The pipeline pointer of a run of `init_example_1` that reaches
`SDL_GpuCreateGraphicsPipeline`. -/
def pipeline_of (w : World) : Handle :=
  if w.outcome (w.made + 6) then w.made + 7 else NULL

/-- The calls of a run of `init_example_1` up to the release of the two
transfer buffers, when the command buffer, the copy pass and the four buffers
are all obtained. -/
def init_example_1_upload_calls (w : World) (device : Handle) : List Call :=
  [ .SDL_GpuAcquireCommandBuffer device (w.made + 1),
    .SDL_GpuBeginCopyPass (w.made + 1) (w.made + 2),
    .SDL_GpuCreateBuffer device "SDL_GPU_BUFFERUSAGE_VERTEX_BIT" 24 (w.made + 3),
    .SDL_GpuSetBufferName device (w.made + 3) "example_1_position_data",
    .SDL_GpuCreateTransferBuffer device "SDL_GPU_TRANSFERBUFFERUSAGE_UPLOAD" 24 (w.made + 4),
    .SDL_GpuSetTransferData device example_1_position_bytes
      { transferBuffer := w.made + 4, offset := 0, size := 24 } false,
    .SDL_GpuUploadToBuffer (w.made + 2) { transferBuffer := w.made + 4, offset := 0 }
      { buffer := w.made + 3, offset := 0, size := 24 } false,
    .SDL_GpuCreateBuffer device "SDL_GPU_BUFFERUSAGE_VERTEX_BIT" 36 (w.made + 5),
    .SDL_GpuSetBufferName device (w.made + 5) "example_1_position_data",
    .SDL_GpuCreateTransferBuffer device "SDL_GPU_TRANSFERBUFFERUSAGE_UPLOAD" 36 (w.made + 6),
    .SDL_GpuSetTransferData device example_1_color_bytes
      { transferBuffer := w.made + 6, offset := 0, size := 36 } false,
    .SDL_GpuUploadToBuffer (w.made + 2) { transferBuffer := w.made + 6, offset := 0 }
      { buffer := w.made + 5, offset := 0, size := 36 } false,
    .SDL_GpuEndCopyPass (w.made + 2),
    .SDL_GpuSubmit (w.made + 1),
    .SDL_GpuReleaseTransferBuffer device (w.made + 4),
    .SDL_GpuReleaseTransferBuffer device (w.made + 6) ]

/-- The calls of such a run from the first `load_shader` on. -/
def init_example_1_pipeline_calls (w : World) (device window : Handle) : List Call :=
  load_shader_calls w device ++ load_shader_calls w device ++
    [ .SDL_GpuGetSwapchainTextureFormat device window,
      .SDL_GpuCreateGraphicsPipeline device
        (init_example_1_pipelinedesc w.swapchain_format NULL NULL) (pipeline_of w) ] ++
    if pipeline_of w = NULL then [.report_error "Failed to create a pipeline, exiting..."]
    else [.SDL_GpuReleaseShader device NULL, .SDL_GpuReleaseShader device NULL]

/-- Whether the command buffer, the copy pass and the four buffers of a run of
`init_example_1` started in `w` are all obtained. -/
def uploads_succeed (w : World) : Bool :=
  w.outcome w.made && w.outcome (w.made + 1) && w.outcome (w.made + 2) &&
    w.outcome (w.made + 3) && w.outcome (w.made + 4) && w.outcome (w.made + 5)

/-! # Theorems -/

/-! ## Traces of `render_example_1` -/

theorem recorded_of_trace (w w2 : World) (l : List Call) (h : w2.trace = w.trace ++ l) :
    recorded w w2 = l := by
  simp [recorded, h]

theorem render_example_1_trace_no_command_buffer (w : World) (context : render_context)
    (window : Handle) (example_ : example_1) (color_vertex_binding : SDL_GpuBufferBinding)
    (h0 : w.outcome w.made = false) :
    recorded w (render_example_1 w context window example_ color_vertex_binding) =
      [ .SDL_GpuAcquireCommandBuffer context.device NULL,
        .report_error "Failed to create a command buffer, exiting..." ] := by
  apply recorded_of_trace
  simp [render_example_1, SDL_GpuAcquireCommandBuffer, World.next, h0, NULL, World.tick,
    World.record, report_error]

theorem render_example_1_trace_no_swapchain (w : World) (context : render_context)
    (window : Handle) (example_ : example_1) (color_vertex_binding : SDL_GpuBufferBinding)
    (h0 : w.outcome w.made = true) (h1 : w.outcome (w.made + 1) = false) :
    recorded w (render_example_1 w context window example_ color_vertex_binding) =
      [ .SDL_GpuAcquireCommandBuffer context.device (w.made + 1),
        .SDL_GpuAcquireSwapchainTexture (w.made + 1) window NULL,
        .SDL_GpuSubmit (w.made + 1) ] := by
  apply recorded_of_trace
  simp [render_example_1, SDL_GpuAcquireCommandBuffer, World.next, h0, h1, NULL,
    SDL_GpuAcquireSwapchainTexture, World.tick, World.record, SDL_GpuSubmit]

theorem render_example_1_trace_drawn (w : World) (context : render_context)
    (window : Handle) (example_ : example_1) (color_vertex_binding : SDL_GpuBufferBinding)
    (h0 : w.outcome w.made = true) (h1 : w.outcome (w.made + 1) = true) :
    recorded w (render_example_1 w context window example_ color_vertex_binding) =
      [ .SDL_GpuAcquireCommandBuffer context.device (w.made + 1),
        .SDL_GpuAcquireSwapchainTexture (w.made + 1) window (w.made + 2),
        .SDL_GpuBeginRenderPass (w.made + 1)
          [{ texture := w.made + 2, clearColor_a := .one, loadOp := "SDL_GPU_LOADOP_CLEAR",
             storeOp := "SDL_GPU_STOREOP_STORE" }] NULL (render_pass_of w),
        .SDL_GpuBindGraphicsPipeline (render_pass_of w) example_.pipeline,
        .SDL_GpuBindVertexBuffers (render_pass_of w) 0
          [{ buffer := example_.buffer_color, offset := 0 }],
        .SDL_GpuBindVertexBuffers (render_pass_of w) 0 [color_vertex_binding],
        .SDL_GpuDrawPrimitives (render_pass_of w) 0 3,
        .SDL_GpuEndRenderPass (render_pass_of w),
        .SDL_GpuSubmit (w.made + 1) ] := by
  apply recorded_of_trace
  simp [render_example_1, SDL_GpuAcquireCommandBuffer, World.next, h0, h1, NULL,
    SDL_GpuAcquireSwapchainTexture, World.tick, World.record, SDL_GpuSubmit,
    SDL_GpuBeginRenderPass, SDL_GpuBindGraphicsPipeline, SDL_GpuBindVertexBuffers,
    SDL_GpuDrawPrimitives, SDL_GpuEndRenderPass, render_pass_of]

/-- In an iteration with a command buffer and a swapchain image, no bind call
ever reaches binding slot 1, and slot 0 ends up bound to the never-assigned
local `color_vertex_binding`. -/
theorem render_example_1_slots (w : World) (context : render_context)
    (window : Handle) (example_ : example_1) (color_vertex_binding : SDL_GpuBufferBinding)
    (h0 : w.outcome w.made = true) (h1 : w.outcome (w.made + 1) = true) :
    bound_slots (before_draw
        (recorded w (render_example_1 w context window example_ color_vertex_binding))) 1
      = none ∧
    bound_slots (before_draw
        (recorded w (render_example_1 w context window example_ color_vertex_binding))) 0
      = some color_vertex_binding := by
  rw [render_example_1_trace_drawn w context window example_ color_vertex_binding h0 h1]
  simp [before_draw, List.takeWhile, bound_slots, bind_step]

/-! ## C1 -/

/-- C1: in every iteration of `render_example_1` whose command-buffer
acquisition returned a non-null `command_buffer`, the iteration records exactly
one `SDL_GpuSubmit`, and it is the submit of that command buffer, whatever the
swapchain acquisition returned; and when the swapchain acquisition returned the
null pointer, the iteration records no draw call and begins no render pass. -/
theorem render_example_1_single_submit (w : World) (context : render_context)
    (window : Handle) (example_ : example_1) (color_vertex_binding : SDL_GpuBufferBinding)
    (command_buffer : Handle) (hnull : command_buffer ≠ NULL)
    (hacq : Call.SDL_GpuAcquireCommandBuffer context.device command_buffer ∈
      recorded w (render_example_1 w context window example_ color_vertex_binding)) :
    submitted (recorded w (render_example_1 w context window example_ color_vertex_binding))
        = [command_buffer] ∧
      submits_of command_buffer
        (recorded w (render_example_1 w context window example_ color_vertex_binding)) = 1 ∧
      (Call.SDL_GpuAcquireSwapchainTexture command_buffer window NULL ∈
          recorded w (render_example_1 w context window example_ color_vertex_binding) →
        draw_calls
            (recorded w (render_example_1 w context window example_ color_vertex_binding))
          = [] ∧
        render_passes
            (recorded w (render_example_1 w context window example_ color_vertex_binding))
          = []) := by
  by_cases h0 : w.outcome w.made = true
  · by_cases h1 : w.outcome (w.made + 1) = true
    · rw [render_example_1_trace_drawn w context window example_ color_vertex_binding h0 h1]
        at hacq ⊢
      simp at hacq
      subst hacq
      simp [submitted, submits_of, NULL]
    · rw [render_example_1_trace_no_swapchain w context window example_ color_vertex_binding
        h0 (by simpa using h1)] at hacq ⊢
      simp at hacq
      subst hacq
      simp [submitted, submits_of, draw_calls, render_passes]
  · rw [render_example_1_trace_no_command_buffer w context window example_
      color_vertex_binding (by simpa using h0)] at hacq
    simp at hacq
    exact absurd hacq hnull

/-- Witness for C1: an iteration with a command buffer but no swapchain image
submits command buffer 1 once and draws nothing. -/
theorem render_example_1_single_submit_witness :
    submitted (recorded (World.failingAt 1)
        (render_example_1 (World.failingAt 1) ⟨9⟩ 7 ⟨1, 2, 3⟩ ⟨40, 41⟩)) = [1] ∧
      submits_of 1 (recorded (World.failingAt 1)
        (render_example_1 (World.failingAt 1) ⟨9⟩ 7 ⟨1, 2, 3⟩ ⟨40, 41⟩)) = 1 ∧
      (Call.SDL_GpuAcquireSwapchainTexture 1 7 NULL ∈
          recorded (World.failingAt 1)
            (render_example_1 (World.failingAt 1) ⟨9⟩ 7 ⟨1, 2, 3⟩ ⟨40, 41⟩) →
        draw_calls (recorded (World.failingAt 1)
            (render_example_1 (World.failingAt 1) ⟨9⟩ 7 ⟨1, 2, 3⟩ ⟨40, 41⟩)) = [] ∧
        render_passes (recorded (World.failingAt 1)
            (render_example_1 (World.failingAt 1) ⟨9⟩ 7 ⟨1, 2, 3⟩ ⟨40, 41⟩)) = []) :=
  render_example_1_single_submit (World.failingAt 1) ⟨9⟩ 7 ⟨1, 2, 3⟩ ⟨40, 41⟩ 1
    (by decide) (by decide)

/-! ## C2 -/

/-- C2 (the code at a frame with a command buffer and a swapchain image,
`example->buffer_position = 2`, `example->buffer_color = 3`): one draw call is
recorded, with arguments `(0, 3)`, but before it both bind calls target slot 0:
the first binds `buffer_color`, the second the never-assigned local, so slot 0
is not bound to `buffer_position` and slot 1 is not bound at all. -/
theorem render_example_1_binds_slot_zero_twice :
    draw_calls (recorded World.allSucceed
        (render_example_1 World.allSucceed ⟨9⟩ 7 ⟨1, 2, 3⟩ ⟨40, 41⟩)) = [(3, 0, 3)] ∧
      (recorded World.allSucceed
          (render_example_1 World.allSucceed ⟨9⟩ 7 ⟨1, 2, 3⟩ ⟨40, 41⟩)).filter
          (fun c => match c with
            | .SDL_GpuBindVertexBuffers _ _ _ => true
            | _ => false) =
        [ .SDL_GpuBindVertexBuffers 3 0 [⟨3, 0⟩], .SDL_GpuBindVertexBuffers 3 0 [⟨40, 41⟩] ] ∧
      bound_slots (before_draw (recorded World.allSucceed
        (render_example_1 World.allSucceed ⟨9⟩ 7 ⟨1, 2, 3⟩ ⟨40, 41⟩))) 0 = some ⟨40, 41⟩ ∧
      bound_slots (before_draw (recorded World.allSucceed
        (render_example_1 World.allSucceed ⟨9⟩ 7 ⟨1, 2, 3⟩ ⟨40, 41⟩))) 1 = none := by
  decide


/-! ## C3 -/

/-- For a supported backend the locator `load_shader` composes does not depend
on the stage kind: the stage extension is overwritten by the backend extension
before the locator is formatted. -/
theorem load_shader_locator_same_for_all_stages (w : World) (context : render_context)
    (name : String) (t1 t2 : ShaderType)
    (h1 : load_shader_switch_type t1 ≠ none) (h2 : load_shader_switch_type t2 ≠ none) :
    load_shader_locator w context name t1 = load_shader_locator w context name t2 := by
  unfold load_shader_locator load_shader
  cases e1 : load_shader_switch_type t1 with
  | none => exact absurd e1 h1
  | some p1 =>
    cases e2 : load_shader_switch_type t2 with
    | none => exact absurd e2 h2
    | some p2 =>
      obtain ⟨a1, b1⟩ := p1
      obtain ⟨a2, b2⟩ := p2
      simp only [SDL_GpuGetBackend]
      cases load_shader_switch_backend w.backend with
      | none => simp
      | some q => simp [World.record]

/-- C3 (the code at name `example_1` on Vulkan): the locator composed for the
vertex stage and the one composed for the fragment stage are the same bytes,
those of `example_1..spirv.(null)`; neither is the specified `example_1.vert.spirv` or
`example_1.frag.spirv`, although these two differ. -/
theorem load_shader_locator_drops_stage_extension :
    load_shader_locator World.allSucceed ⟨9⟩ "example_1" ShaderType_Vertex
        = some (c_bytes "example_1..spirv.(null)") ∧
      load_shader_locator World.allSucceed ⟨9⟩ "example_1" ShaderType_Fragment
        = some (c_bytes "example_1..spirv.(null)") ∧
      spec_locator "example_1" ShaderType_Vertex .VULKAN = "example_1.vert.spirv" ∧
      spec_locator "example_1" ShaderType_Fragment .VULKAN = "example_1.frag.spirv" ∧
      load_shader_locator World.allSucceed ⟨9⟩ "example_1" ShaderType_Vertex
        = load_shader_locator World.allSucceed ⟨9⟩ "example_1" ShaderType_Fragment ∧
      load_shader_locator World.allSucceed ⟨9⟩ "example_1" ShaderType_Vertex
        ≠ some (c_bytes (spec_locator "example_1" ShaderType_Vertex .VULKAN)) ∧
      load_shader_locator World.allSucceed ⟨9⟩ "example_1" ShaderType_Fragment
        ≠ some (c_bytes (spec_locator "example_1" ShaderType_Fragment .VULKAN)) := by
  decide

/-! ## C4 -/

/-- C4: for a stage kind among Vertex, Fragment and Compute and any two worlds
running on supported backends (and any two names), `load_shader` reaches its
last statement with the same `createinfo.entryPointName`, namely `vtx_main`,
`frag_main` or `comp_main` by stage kind, and with `createinfo.format` the
format of the world's own backend (D3D11: HLSL, Vulkan: SPIRV, Metal:
METALLIB). -/
theorem load_shader_entry_point_by_stage (w1 w2 : World) (context1 context2 : render_context)
    (name1 name2 : String) (type : ShaderType)
    (htype : type = ShaderType_Vertex ∨ type = ShaderType_Fragment ∨
      type = ShaderType_Compute)
    (hb1 : w1.backend = .D3D11 ∨ w1.backend = .VULKAN ∨ w1.backend = .METAL)
    (hb2 : w2.backend = .D3D11 ∨ w2.backend = .VULKAN ∨ w2.backend = .METAL) :
    ∃ f1 f2 : LoadShaderFrame,
      (load_shader w1 context1 name1 type).frame = some f1 ∧
      (load_shader w2 context2 name2 type).frame = some f2 ∧
      f1.createinfo.entryPointName = f2.createinfo.entryPointName ∧
      f1.createinfo.entryPointName = spec_entry_point type ∧
      some f1.createinfo.format = spec_format w1.backend ∧
      some f2.createinfo.format = spec_format w2.backend := by
  rcases htype with rfl | rfl | rfl <;>
  rcases hb1 with e1 | e1 | e1 <;>
  rcases hb2 with e2 | e2 | e2 <;>
  simp [load_shader, load_shader_switch_type, load_shader_switch_backend, SDL_GpuGetBackend,
    World.record, e1, e2, spec_entry_point, spec_format, ShaderType_Vertex,
    ShaderType_Fragment, ShaderType_Compute]

/-- Witness for C4: the fragment stage on Vulkan and on Metal. -/
theorem load_shader_entry_point_by_stage_witness :
    ∃ f1 f2 : LoadShaderFrame,
      (load_shader World.allSucceed ⟨9⟩ "example_1" ShaderType_Fragment).frame = some f1 ∧
      (load_shader { World.allSucceed with backend := .METAL } ⟨9⟩ "other"
        ShaderType_Fragment).frame = some f2 ∧
      f1.createinfo.entryPointName = f2.createinfo.entryPointName ∧
      f1.createinfo.entryPointName = spec_entry_point ShaderType_Fragment ∧
      some f1.createinfo.format = spec_format World.allSucceed.backend ∧
      some f2.createinfo.format =
        spec_format ({ World.allSucceed with backend := .METAL } : World).backend :=
  load_shader_entry_point_by_stage World.allSucceed
    { World.allSucceed with backend := .METAL } ⟨9⟩ ⟨9⟩ "example_1" "other"
    ShaderType_Fragment (by decide) (by decide) (by decide)

/-- The pointer `load_shader` returns is null on every path. -/
theorem load_shader_ret (w : World) (context : render_context) (name : String)
    (type : ShaderType) : (load_shader w context name type).ret = NULL := by
  unfold load_shader
  cases load_shader_switch_type type with
  | none => rfl
  | some p =>
    obtain ⟨a, b⟩ := p
    simp only [SDL_GpuGetBackend]
    cases load_shader_switch_backend w.backend with
    | none => rfl
    | some q => rfl


/-! ## Traces of `create_buffer_and_upload` -/

theorem create_buffer_and_upload_trace_ok (w : World) (context : render_context)
    (command_buffer copy_pass : Handle) (name : String) (data : List Nat) (size : Nat)
    (h0 : w.outcome w.made = true) (h1 : w.outcome (w.made + 1) = true) :
    (create_buffer_and_upload w context command_buffer copy_pass name data size).ret = true ∧
    (create_buffer_and_upload w context command_buffer copy_pass name data size
      ).buffer_destination = w.made + 1 ∧
    (create_buffer_and_upload w context command_buffer copy_pass name data size
      ).buffer_transfer = some (w.made + 2) ∧
    recorded w
        (create_buffer_and_upload w context command_buffer copy_pass name data size).world =
      [ .SDL_GpuCreateBuffer context.device "SDL_GPU_BUFFERUSAGE_VERTEX_BIT" (to_Uint32 size)
          (w.made + 1),
        .SDL_GpuSetBufferName context.device (w.made + 1) "example_1_position_data",
        .SDL_GpuCreateTransferBuffer context.device "SDL_GPU_TRANSFERBUFFERUSAGE_UPLOAD"
          (to_Uint32 size)
          (w.made + 2),
        .SDL_GpuSetTransferData context.device data
          { transferBuffer := w.made + 2, offset := 0, size := to_Uint32 size } false,
        .SDL_GpuUploadToBuffer copy_pass { transferBuffer := w.made + 2, offset := 0 }
          { buffer := w.made + 1, offset := 0, size := to_Uint32 size } false ] := by
  refine ⟨?_, ?_, ?_, ?_⟩
  case refine_4 =>
    apply recorded_of_trace
    simp [create_buffer_and_upload, SDL_GpuCreateBuffer, World.next, h0, h1, NULL, World.tick,
      World.record, SDL_GpuSetBufferName, SDL_GpuCreateTransferBuffer, SDL_GpuSetTransferData,
      SDL_GpuUploadToBuffer]
  all_goals
    simp [create_buffer_and_upload, SDL_GpuCreateBuffer, World.next, h0, h1, NULL, World.tick,
      World.record, SDL_GpuSetBufferName, SDL_GpuCreateTransferBuffer, SDL_GpuSetTransferData,
      SDL_GpuUploadToBuffer]

theorem create_buffer_and_upload_trace_no_buffer (w : World) (context : render_context)
    (command_buffer copy_pass : Handle) (name : String) (data : List Nat) (size : Nat)
    (h0 : w.outcome w.made = false) :
    (create_buffer_and_upload w context command_buffer copy_pass name data size).ret = false ∧
    recorded w
        (create_buffer_and_upload w context command_buffer copy_pass name data size).world =
      [ .SDL_GpuCreateBuffer context.device "SDL_GPU_BUFFERUSAGE_VERTEX_BIT" (to_Uint32 size)
          NULL,
        .report_error "Failed to create a buffer, exiting..." ] := by
  refine ⟨?_, ?_⟩
  case refine_2 =>
    apply recorded_of_trace
    simp [create_buffer_and_upload, SDL_GpuCreateBuffer, World.next, h0, NULL, World.tick,
      World.record, report_error]
  all_goals
    simp [create_buffer_and_upload, SDL_GpuCreateBuffer, World.next, h0, NULL, World.tick,
      World.record, report_error]

theorem create_buffer_and_upload_trace_no_transfer (w : World) (context : render_context)
    (command_buffer copy_pass : Handle) (name : String) (data : List Nat) (size : Nat)
    (h0 : w.outcome w.made = true) (h1 : w.outcome (w.made + 1) = false) :
    (create_buffer_and_upload w context command_buffer copy_pass name data size).ret = false ∧
    recorded w
        (create_buffer_and_upload w context command_buffer copy_pass name data size).world =
      [ .SDL_GpuCreateBuffer context.device "SDL_GPU_BUFFERUSAGE_VERTEX_BIT" (to_Uint32 size)
          (w.made + 1),
        .SDL_GpuSetBufferName context.device (w.made + 1) "example_1_position_data",
        .SDL_GpuCreateTransferBuffer context.device "SDL_GPU_TRANSFERBUFFERUSAGE_UPLOAD"
          (to_Uint32 size)
          NULL,
        .report_error "Failed to create a transfer buffer, exiting..." ] := by
  refine ⟨?_, ?_⟩
  case refine_2 =>
    apply recorded_of_trace
    simp [create_buffer_and_upload, SDL_GpuCreateBuffer, World.next, h0, h1, NULL, World.tick,
      World.record, SDL_GpuSetBufferName, SDL_GpuCreateTransferBuffer, report_error]
  all_goals
    simp [create_buffer_and_upload, SDL_GpuCreateBuffer, World.next, h0, h1, NULL, World.tick,
      World.record, SDL_GpuSetBufferName, SDL_GpuCreateTransferBuffer, report_error]

theorem write_at_whole (bytes : List Nat) :
    write_at (List.replicate bytes.length 0) 0 bytes = bytes := by
  simp [write_at]

/-- Replaying the calls of a successful `create_buffer_and_upload` that reach
SDL with size `k`: the transfer buffer and the destination buffer both end up
holding the first `k` bytes of `data`. -/
theorem upload_replay (m : GpuMemory) (device copy_pass destination transfer : Handle)
    (data : List Nat) (k : Nat) (hk : k ≤ data.length)
    (hd : destination ≠ NULL) (ht : transfer ≠ NULL) :
    (m.run
      [ .SDL_GpuCreateBuffer device "SDL_GPU_BUFFERUSAGE_VERTEX_BIT" k destination,
        .SDL_GpuSetBufferName device destination "example_1_position_data",
        .SDL_GpuCreateTransferBuffer device "SDL_GPU_TRANSFERBUFFERUSAGE_UPLOAD" k transfer,
        .SDL_GpuSetTransferData device data
          { transferBuffer := transfer, offset := 0, size := k } false,
        .SDL_GpuUploadToBuffer copy_pass { transferBuffer := transfer, offset := 0 }
          { buffer := destination, offset := 0, size := k } false ]).transfers transfer
        = data.take k ∧
    (m.run
      [ .SDL_GpuCreateBuffer device "SDL_GPU_BUFFERUSAGE_VERTEX_BIT" k destination,
        .SDL_GpuSetBufferName device destination "example_1_position_data",
        .SDL_GpuCreateTransferBuffer device "SDL_GPU_TRANSFERBUFFERUSAGE_UPLOAD" k transfer,
        .SDL_GpuSetTransferData device data
          { transferBuffer := transfer, offset := 0, size := k } false,
        .SDL_GpuUploadToBuffer copy_pass { transferBuffer := transfer, offset := 0 }
          { buffer := destination, offset := 0, size := k } false ]).buffers destination
        = data.take k := by
  have hlen : (data.take k).length = k := by simp [hk]
  have hw : write_at (List.replicate k 0) 0 (data.take k) = data.take k := by
    have := write_at_whole (data.take k)
    rwa [hlen] at this
  have htk : (data.take k).take k = data.take k := by simp
  simp [GpuMemory.run, GpuMemory.step, hd, ht, hw, htk]

/-- The narrowing to `Uint32` leaves a size below `2 ^ 32` as it is. -/
theorem to_Uint32_of_lt (n : Nat) (h : n < 2 ^ 32) : to_Uint32 n = n := by
  unfold to_Uint32
  exact Nat.mod_eq_of_lt h

/-! ## C5 -/

/-- C5 as stated fails: with `size == 0` and a device that allocates both
buffers, `create_buffer_and_upload` returns `true` and records a copy command
(of size 0). -/
theorem zero_size_upload_succeeds :
    (create_buffer_and_upload World.allSucceed ⟨9⟩ 11 12 "empty" [] 0).ret = true ∧
      upload_calls (recorded World.allSucceed
        (create_buffer_and_upload World.allSucceed ⟨9⟩ 11 12 "empty" [] 0).world) =
        [(12, ⟨2, 0⟩, ⟨1, 0, 0⟩)] := by
  decide

/-- C5, amended: `create_buffer_and_upload` does not look at `size`.  Called
with `size == 0` it returns `true` exactly when both the destination buffer and
the transfer buffer are allocated, and it then records exactly one copy
command, of size 0; when either allocation fails it returns `false` and
records no copy command. -/
theorem create_buffer_and_upload_size_zero (w : World) (context : render_context)
    (command_buffer copy_pass : Handle) (name : String) (data : List Nat) :
    (create_buffer_and_upload w context command_buffer copy_pass name data 0).ret =
        (w.outcome w.made && w.outcome (w.made + 1)) ∧
      upload_calls (recorded w
          (create_buffer_and_upload w context command_buffer copy_pass name data 0).world) =
        if (w.outcome w.made && w.outcome (w.made + 1)) = true then
          [(copy_pass, { transferBuffer := w.made + 2, offset := 0 },
            { buffer := w.made + 1, offset := 0, size := 0 })]
        else [] := by
  cases h0 : w.outcome w.made with
  | false =>
    obtain ⟨hr, ht⟩ := create_buffer_and_upload_trace_no_buffer w context command_buffer
      copy_pass name data 0 h0
    rw [hr, ht]
    simp [upload_calls]
  | true =>
    cases h1 : w.outcome (w.made + 1) with
    | false =>
      obtain ⟨hr, ht⟩ := create_buffer_and_upload_trace_no_transfer w context command_buffer
        copy_pass name data 0 h0 h1
      rw [hr, ht]
      simp [upload_calls]
    | true =>
      obtain ⟨hr, _, _, ht⟩ := create_buffer_and_upload_trace_ok w context command_buffer
        copy_pass name data 0 h0 h1
      rw [hr, ht]
      simp [upload_calls, to_Uint32]

/-! ## C6 -/

/-- C6 as stated fails: a payload of `2 ^ 32 + 3` bytes (all of them 7) is
passed with its size as a `size_t`; the size reaches SDL as the `Uint32` 3.
Both allocations succeed and the call returns `true`, but the one recorded
copy command has size 3, not the size of the payload, and replaying the
recorded calls on byte arrays leaves the three bytes `[7, 7, 7]` in the
destination buffer, which is not the payload. -/
theorem oversized_upload_is_truncated :
    (create_buffer_and_upload World.allSucceed ⟨9⟩ 11 12 "big"
        (List.replicate 4294967299 7) 4294967299).ret = true ∧
      upload_calls (recorded World.allSucceed
        (create_buffer_and_upload World.allSucceed ⟨9⟩ 11 12 "big"
          (List.replicate 4294967299 7) 4294967299).world) =
        [(12, ⟨2, 0⟩, ⟨1, 0, 3⟩)] ∧
      ((GpuMemory.mk (fun _ => []) (fun _ => [])).run (recorded World.allSucceed
        (create_buffer_and_upload World.allSucceed ⟨9⟩ 11 12 "big"
          (List.replicate 4294967299 7) 4294967299).world)).buffers 1 = [7, 7, 7] ∧
      ((GpuMemory.mk (fun _ => []) (fun _ => [])).run (recorded World.allSucceed
        (create_buffer_and_upload World.allSucceed ⟨9⟩ 11 12 "big"
          (List.replicate 4294967299 7) 4294967299).world)).buffers 1
        ≠ List.replicate 4294967299 7 := by
  have hlen : (List.replicate 4294967299 7 : List Nat).length = 4294967299 :=
    List.length_replicate _ _
  have htake : (List.replicate 4294967299 7 : List Nat).take 3 = [7, 7, 7] := by
    rw [List.take_replicate]
    rfl
  generalize List.replicate 4294967299 7 = data at hlen htake
  have hn : to_Uint32 4294967299 = 3 := by decide
  obtain ⟨hr, _, _, htr⟩ := create_buffer_and_upload_trace_ok World.allSucceed ⟨9⟩ 11 12
    "big" data 4294967299 rfl rfl
  have hmade : World.allSucceed.made = 0 := rfl
  rw [hn, hmade] at htr
  simp only [Nat.zero_add] at htr
  have hmem := (upload_replay (GpuMemory.mk (fun _ => []) (fun _ => [])) 9 12 1 2 data 3
    (by omega) (by decide) (by decide)).2
  rw [htake] at hmem
  rw [htr]
  refine ⟨hr, ?_, hmem, ?_⟩
  · simp [upload_calls]
  · rw [hmem]
    intro h
    have hl := congrArg List.length h
    rw [hlen] at hl
    simp at hl

/-- C6, amended: when both allocations succeed, `create_buffer_and_upload`
called with a non-empty payload `data` of fewer than `2 ^ 32` bytes and its
size returns `true`, having stored the new destination and transfer buffers
through its out-parameters; the calls it records are the two creations, the
naming, one `SDL_GpuSetTransferData` of all of `data` at offset 0 of the new
transfer buffer and exactly one `SDL_GpuUploadToBuffer` from offset 0 of that
transfer buffer to offset 0 of the new destination buffer for the whole size;
no release of a transfer buffer is recorded; and in the byte-array model of
the GPU, from any prior memory, the recorded calls leave both the transfer
buffer and the destination buffer holding exactly `data`. -/
theorem create_buffer_and_upload_round_trip (w : World) (context : render_context)
    (command_buffer copy_pass : Handle) (name : String) (data : List Nat) (m : GpuMemory)
    (hdata : data ≠ []) (hsize : data.length < 2 ^ 32)
    (h0 : w.outcome w.made = true) (h1 : w.outcome (w.made + 1) = true) :
    (create_buffer_and_upload w context command_buffer copy_pass name data data.length).ret
        = true ∧
      (create_buffer_and_upload w context command_buffer copy_pass name data data.length
        ).buffer_destination = w.made + 1 ∧
      (create_buffer_and_upload w context command_buffer copy_pass name data data.length
        ).buffer_transfer = some (w.made + 2) ∧
      recorded w
          (create_buffer_and_upload w context command_buffer copy_pass name data data.length
            ).world =
        [ .SDL_GpuCreateBuffer context.device "SDL_GPU_BUFFERUSAGE_VERTEX_BIT" data.length
            (w.made + 1),
          .SDL_GpuSetBufferName context.device (w.made + 1) "example_1_position_data",
          .SDL_GpuCreateTransferBuffer context.device "SDL_GPU_TRANSFERBUFFERUSAGE_UPLOAD"
            data.length (w.made + 2),
          .SDL_GpuSetTransferData context.device data
            { transferBuffer := w.made + 2, offset := 0, size := data.length } false,
          .SDL_GpuUploadToBuffer copy_pass { transferBuffer := w.made + 2, offset := 0 }
            { buffer := w.made + 1, offset := 0, size := data.length } false ] ∧
      upload_calls (recorded w
          (create_buffer_and_upload w context command_buffer copy_pass name data data.length
            ).world) =
        [(copy_pass, { transferBuffer := w.made + 2, offset := 0 },
          { buffer := w.made + 1, offset := 0, size := data.length })] ∧
      released_transfer_buffers (recorded w
          (create_buffer_and_upload w context command_buffer copy_pass name data data.length
            ).world) = [] ∧
      (m.run (recorded w
          (create_buffer_and_upload w context command_buffer copy_pass name data data.length
            ).world)).transfers (w.made + 2) = data ∧
      (m.run (recorded w
          (create_buffer_and_upload w context command_buffer copy_pass name data data.length
            ).world)).buffers (w.made + 1) = data := by
  obtain ⟨hr, hd, ht, htr⟩ := create_buffer_and_upload_trace_ok w context command_buffer
    copy_pass name data data.length h0 h1
  rw [to_Uint32_of_lt data.length hsize] at htr
  obtain ⟨hmt, hmb⟩ := upload_replay m context.device copy_pass (w.made + 1) (w.made + 2)
    data data.length (Nat.le_refl _) (by simp [NULL]) (by simp [NULL])
  rw [List.take_length] at hmt hmb
  refine ⟨hr, hd, ht, htr, ?_, ?_, ?_, ?_⟩
  · rw [htr]; simp [upload_calls]
  · rw [htr]; simp [released_transfer_buffers]
  · rw [htr]; exact hmt
  · rw [htr]; exact hmb

/-- Witness for C6: a three-byte payload, read back from destination buffer 1. -/
theorem create_buffer_and_upload_round_trip_witness :
    (create_buffer_and_upload World.allSucceed ⟨9⟩ 11 12 "payload" [7, 8, 9] 3).ret = true ∧
      (create_buffer_and_upload World.allSucceed ⟨9⟩ 11 12 "payload" [7, 8, 9] 3
        ).buffer_destination = 1 ∧
      ((GpuMemory.mk (fun _ => []) (fun _ => [])).run (recorded World.allSucceed
        (create_buffer_and_upload World.allSucceed ⟨9⟩ 11 12 "payload" [7, 8, 9] 3).world)
        ).buffers 1 = [7, 8, 9] :=
  have h := create_buffer_and_upload_round_trip World.allSucceed ⟨9⟩ 11 12 "payload" [7, 8, 9]
    (GpuMemory.mk (fun _ => []) (fun _ => [])) (by decide) (by decide) (by decide) (by decide)
  ⟨h.1, h.2.1, h.2.2.2.2.2.2.2⟩

/-! ## Traces of `init_example_1` -/

theorem init_example_1_trace_reached (w : World) (context : render_context) (window : Handle)
    (example_ : example_1) (h : uploads_succeed w = true) :
    recorded w (init_example_1 w context window example_).world =
        init_example_1_upload_calls w context.device ++
          init_example_1_pipeline_calls w context.device window ∧
      (init_example_1 w context window example_).ret = w.outcome (w.made + 6) ∧
      (init_example_1 w context window example_).example_ =
        { pipeline := pipeline_of w, buffer_position := w.made + 3,
          buffer_color := w.made + 5 } := by
  simp only [uploads_succeed, Bool.and_eq_true] at h
  obtain ⟨⟨⟨⟨⟨h0, h1⟩, h2⟩, h3⟩, h4⟩, h5⟩ := h
  have hs : (init_example_1 w context window example_).world.trace = w.trace ++
      (init_example_1_upload_calls w context.device ++
          init_example_1_pipeline_calls w context.device window) ∧
      (init_example_1 w context window example_).ret = w.outcome (w.made + 6) ∧
      (init_example_1 w context window example_).example_ =
        { pipeline := pipeline_of w, buffer_position := w.made + 3,
          buffer_color := w.made + 5 } := by
    cases hb : load_shader_switch_backend w.backend <;>
    cases h6 : w.outcome (w.made + 6) <;>
    simp [init_example_1, create_buffer_and_upload, load_shader, load_shader_switch_type,
      ShaderType_Vertex, ShaderType_Fragment, hb, h0, h1, h2, h3, h4, h5, h6,
      SDL_GpuAcquireCommandBuffer, SDL_GpuBeginCopyPass, SDL_GpuCreateBuffer,
      SDL_GpuSetBufferName, SDL_GpuCreateTransferBuffer, SDL_GpuSetTransferData,
      SDL_GpuUploadToBuffer, SDL_GpuEndCopyPass, SDL_GpuSubmit, SDL_GpuReleaseTransferBuffer,
      SDL_GpuGetBackend, SDL_GpuGetSwapchainTextureFormat, SDL_GpuCreateGraphicsPipeline,
      SDL_GpuReleaseShader, report_error, puts, World.next, World.tick, World.record, NULL,
      init_example_1_upload_calls, init_example_1_pipeline_calls, load_shader_calls,
      pipeline_of, to_Uint32, sizeof_example_1_position_data, sizeof_example_1_color_data,
      sizeof_VertexPosition2D, sizeof_VertexColor, sizeof_float, example_1_position_data,
      example_1_color_data]
  exact ⟨recorded_of_trace _ _ _ hs.1, hs.2⟩


theorem init_example_1_trace_failed (w : World) (context : render_context) (window : Handle)
    (example_ : example_1) (h : uploads_succeed w = false) :
    (init_example_1 w context window example_).ret = false ∧
      submitted (recorded w (init_example_1 w context window example_).world) = [] ∧
      released_transfer_buffers
        (recorded w (init_example_1 w context window example_).world) = [] ∧
      pipeline_descs (recorded w (init_example_1 w context window example_).world) = [] := by
  cases h0 : w.outcome w.made <;>
  cases h1 : w.outcome (w.made + 1) <;>
  cases h2 : w.outcome (w.made + 2) <;>
  cases h3 : w.outcome (w.made + 3) <;>
  cases h4 : w.outcome (w.made + 4) <;>
  cases h5 : w.outcome (w.made + 5) <;>
  simp [uploads_succeed, h0, h1, h2, h3, h4, h5] at h <;>
  simp [recorded, submitted, released_transfer_buffers, pipeline_descs,
      init_example_1, create_buffer_and_upload, h0, h1, h2, h3, h4, h5,
      SDL_GpuAcquireCommandBuffer, SDL_GpuBeginCopyPass, SDL_GpuCreateBuffer,
      SDL_GpuSetBufferName, SDL_GpuCreateTransferBuffer, SDL_GpuSetTransferData,
      SDL_GpuUploadToBuffer, report_error, World.next, World.tick, World.record, NULL]


/-! ## C7 -/

/-- C7 as stated fails: when the allocation of the second destination buffer
fails, `init_example_1` returns `false` having created transfer buffer 4,
which it never releases, and having submitted nothing. -/
theorem init_example_1_leaks_on_failure :
    (init_example_1 (World.failingAt 4) ⟨9⟩ 7 ⟨0, 0, 0⟩).ret = false ∧
      created_transfer_buffers (recorded (World.failingAt 4)
        (init_example_1 (World.failingAt 4) ⟨9⟩ 7 ⟨0, 0, 0⟩).world) = [4] ∧
      (released_transfer_buffers (recorded (World.failingAt 4)
        (init_example_1 (World.failingAt 4) ⟨9⟩ 7 ⟨0, 0, 0⟩).world)).count 4 = 0 ∧
      submitted (recorded (World.failingAt 4)
        (init_example_1 (World.failingAt 4) ⟨9⟩ 7 ⟨0, 0, 0⟩).world) = [] := by
  decide

/-- C7, amended: in a run of `init_example_1` that obtains the command buffer,
the copy pass and the four buffers (whatever pipeline creation returns then),
exactly two transfer buffers are created, the copy pass of the command buffer
holds one copy from each, the command buffer is submitted once, and each of the
two transfer buffers is released exactly once, no release standing before the
submit; in every other run `init_example_1` returns `false` without any submit
and without releasing any transfer buffer. -/
theorem init_example_1_releases_after_submit (w : World) (context : render_context)
    (window : Handle) (example_ : example_1) :
    if uploads_succeed w = true then
      created_transfer_buffers (recorded w (init_example_1 w context window example_).world)
          = [w.made + 4, w.made + 6] ∧
        Call.SDL_GpuBeginCopyPass (w.made + 1) (w.made + 2) ∈
          recorded w (init_example_1 w context window example_).world ∧
        (upload_calls (recorded w (init_example_1 w context window example_).world)).map
            (fun u => (u.1, u.2.1.transferBuffer))
          = [(w.made + 2, w.made + 4), (w.made + 2, w.made + 6)] ∧
        submitted (recorded w (init_example_1 w context window example_).world)
          = [w.made + 1] ∧
        (released_transfer_buffers
          (recorded w (init_example_1 w context window example_).world)).count (w.made + 4)
          = 1 ∧
        (released_transfer_buffers
          (recorded w (init_example_1 w context window example_).world)).count (w.made + 6)
          = 1 ∧
        released_transfer_buffers (before_submit (w.made + 1)
          (recorded w (init_example_1 w context window example_).world)) = [] ∧
        released_transfer_buffers (from_submit (w.made + 1)
          (recorded w (init_example_1 w context window example_).world))
          = [w.made + 4, w.made + 6]
    else
      (init_example_1 w context window example_).ret = false ∧
        submitted (recorded w (init_example_1 w context window example_).world) = [] ∧
        released_transfer_buffers
          (recorded w (init_example_1 w context window example_).world) = [] := by
  split
  next h =>
    rw [(init_example_1_trace_reached w context window example_ h).1]
    cases hb : load_shader_switch_backend w.backend <;>
    cases h6 : w.outcome (w.made + 6) <;>
    simp [init_example_1_upload_calls, init_example_1_pipeline_calls, load_shader_calls,
      pipeline_of, hb, h6, NULL, created_transfer_buffers, upload_calls, submitted,
      released_transfer_buffers, before_submit, from_submit, List.takeWhile, List.dropWhile]
  next h =>
    obtain ⟨hr, hs, hl, _⟩ := init_example_1_trace_failed w context window example_
      (by simpa using h)
    exact ⟨hr, hs, hl⟩

/-! ## C8 -/

/-- C8 as stated fails: with a backend that accepts the description,
`init_example_1` returns `true` and stores a non-null pipeline although both
shader stages returned by `load_shader`, and passed to pipeline creation, are
null. -/
theorem init_example_1_accepts_null_shaders :
    (load_shader World.allSucceed ⟨9⟩ "example_1" ShaderType_Vertex).ret = NULL ∧
      (load_shader World.allSucceed ⟨9⟩ "example_1" ShaderType_Fragment).ret = NULL ∧
      (pipeline_descs (recorded World.allSucceed
          (init_example_1 World.allSucceed ⟨9⟩ 7 ⟨0, 0, 0⟩).world)).map
          (fun d => (d.vertexShader, d.fragmentShader)) = [(NULL, NULL)] ∧
      (init_example_1 World.allSucceed ⟨9⟩ 7 ⟨0, 0, 0⟩).ret = true ∧
      (init_example_1 World.allSucceed ⟨9⟩ 7 ⟨0, 0, 0⟩).example_.pipeline = 7 := by
  decide

/-- C8, amended: `init_example_1` never inspects the shader stages.  In a run
that reaches pipeline construction it makes one
`SDL_GpuCreateGraphicsPipeline` call, whose description carries the two (null)
stages returned by `load_shader`, stores the returned pointer in
`example->pipeline`, and returns `false` exactly when that pointer is null. -/
theorem init_example_1_fails_iff_pipeline_null (w : World) (context : render_context)
    (window : Handle) (example_ : example_1) (h : uploads_succeed w = true) :
    pipeline_descs (recorded w (init_example_1 w context window example_).world) =
        [init_example_1_pipelinedesc w.swapchain_format
          (load_shader w context "example_1" ShaderType_Vertex).ret
          (load_shader w context "example_1" ShaderType_Fragment).ret] ∧
      Call.SDL_GpuCreateGraphicsPipeline context.device
          (init_example_1_pipelinedesc w.swapchain_format NULL NULL)
          (init_example_1 w context window example_).example_.pipeline ∈
        recorded w (init_example_1 w context window example_).world ∧
      ((init_example_1 w context window example_).ret = false ↔
        (init_example_1 w context window example_).example_.pipeline = NULL) := by
  obtain ⟨ht, hr, he⟩ := init_example_1_trace_reached w context window example_ h
  rw [ht, hr, he, load_shader_ret, load_shader_ret]
  cases hb : load_shader_switch_backend w.backend <;>
  cases h6 : w.outcome (w.made + 6) <;>
  simp [init_example_1_upload_calls, init_example_1_pipeline_calls, load_shader_calls,
    pipeline_of, hb, h6, NULL, pipeline_descs]

/-- Witness for C8: the backend rejects the description (call number 6 fails). -/
theorem init_example_1_fails_iff_pipeline_null_witness :
    pipeline_descs (recorded (World.failingAt 6)
        (init_example_1 (World.failingAt 6) ⟨9⟩ 7 ⟨0, 0, 0⟩).world) =
        [init_example_1_pipelinedesc (World.failingAt 6).swapchain_format
          (load_shader (World.failingAt 6) ⟨9⟩ "example_1" ShaderType_Vertex).ret
          (load_shader (World.failingAt 6) ⟨9⟩ "example_1" ShaderType_Fragment).ret] ∧
      Call.SDL_GpuCreateGraphicsPipeline 9
          (init_example_1_pipelinedesc (World.failingAt 6).swapchain_format NULL NULL)
          (init_example_1 (World.failingAt 6) ⟨9⟩ 7 ⟨0, 0, 0⟩).example_.pipeline ∈
        recorded (World.failingAt 6)
          (init_example_1 (World.failingAt 6) ⟨9⟩ 7 ⟨0, 0, 0⟩).world ∧
      ((init_example_1 (World.failingAt 6) ⟨9⟩ 7 ⟨0, 0, 0⟩).ret = false ↔
        (init_example_1 (World.failingAt 6) ⟨9⟩ 7 ⟨0, 0, 0⟩).example_.pipeline = NULL) :=
  init_example_1_fails_iff_pipeline_null (World.failingAt 6) ⟨9⟩ 7 ⟨0, 0, 0⟩ (by decide)

/-! ## C9 -/

/-- C9 (the code): in the vertex layout `init_example_1` hands to pipeline
creation, every attribute names a declared binding, but both attributes carry
location 0, so the locations are not pairwise distinct. -/
theorem init_example_1_attribute_locations_collide :
    (pipeline_descs (recorded World.allSucceed
        (init_example_1 World.allSucceed ⟨9⟩ 7 ⟨0, 0, 0⟩).world)).map
        (fun d => d.vertexInputState.vertexAttributes.map fun a => a.location) = [[0, 0]] ∧
      ¬ (init_example_1_vertex_attributes.map fun a => a.location).Nodup ∧
      (init_example_1_vertex_attributes.map fun a => a.binding) = [0, 1] ∧
      (init_example_1_vertex_binding.map fun b => b.binding) = [0, 1] := by
  decide

/-! ## C10 -/

/-- C10: `load_shader` returns the null pointer for every name, every value of
`ShaderType` and every backend; and every run of `init_example_1` either makes
no pipeline-creation call or makes exactly one, whose description has a null
vertex shader and a null fragment shader. -/
theorem load_shader_always_null :
    (∀ (w : World) (context : render_context) (name : String) (type : ShaderType),
        (load_shader w context name type).ret = NULL) ∧
      (∀ (w : World) (context : render_context) (window : Handle) (example_ : example_1),
        pipeline_descs (recorded w (init_example_1 w context window example_).world) =
          if uploads_succeed w = true then
            [init_example_1_pipelinedesc w.swapchain_format NULL NULL]
          else []) := by
  refine ⟨load_shader_ret, ?_⟩
  intro w context window example_
  split
  next h =>
    rw [(init_example_1_trace_reached w context window example_ h).1]
    cases hb : load_shader_switch_backend w.backend <;>
    cases h6 : w.outcome (w.made + 6) <;>
    simp [init_example_1_upload_calls, init_example_1_pipeline_calls, load_shader_calls,
      pipeline_of, hb, h6, NULL, pipeline_descs]
  next h =>
    exact (init_example_1_trace_failed w context window example_ (by simpa using h)).2.2.2


end Sdl3GpuTest
